import Mathlib

/-!
Shallow embedding of `src/main.py` (Mark-Distribution-Graphing-Automation).

Python `int` is embedded as `Int`.  The `random` module's hidden state is
embedded as an explicit infinite stream of integers together with a position:
each call to `random.randint(a, b)` reads the next stream value, reduces it
into the interval `[a, b]`, and advances the position.  Once "seeded" (a fixed
`RState` value) the source is a deterministic stream, matching CPython's
Mersenne-Twister behaviour at the level the claims need: the value drawn is a
deterministic function of the state, and for `a ≤ b` it lies in `[a, b]`.

Python methods that mutate `self` are embedded as functions from the object
state (plus the random state) to the new state.  A Python constructor can in
principle signal failure only by raising, so `__init__` is embedded as an
`Except String` value; the bodies in the source contain no `raise`, and the
embeddings therefore always return `Except.ok`.

Python `dict` equality ignores insertion order, so `dict(Counter(scores))` is
embedded as the association list pairing each distinct score with its count of
occurrences; the claims about it are insensitive to key order.
-/

/-- State of the `random` module: an infinite stream of integers and the
current read position. -/
structure RState where
  stream : Nat → Int
  pos : Nat

/-- `random.randint(a, b)`: draw the next stream value, reduced into `[a, b]`
(for `a ≤ b`), and advance the state. -/
def randint (a b : Int) (s : RState) : Int × RState :=
  (a + (s.stream s.pos).emod (b - a + 1), ⟨s.stream, s.pos + 1⟩)

/-- `class QuizSimulator` (src/main.py lines 5-17): the three fields stored by
`__init__`. -/
structure QuizSimulator where
  num_questions : Int
  num_options : Int
  knowledge_shift : Int

/-- `QuizSimulator.__init__(num_questions, num_options, knowledge_shift)`
(src/main.py lines 6-17): the body only assigns the three attributes and
contains no `raise`, so it always returns `ok`.  The Python defaults are
`num_questions=20, num_options=4, knowledge_shift=0`. -/
def QuizSimulator.init (num_questions num_options knowledge_shift : Int) :
    Except String QuizSimulator :=
  .ok ⟨num_questions, num_options, knowledge_shift⟩

/-- The generator-sum on src/main.py line 26:
`sum(random.randint(1, self.num_options) == 4 for _ in range(self.num_questions))`,
unrolled over the `n` iterations of `range`.  Note the comparison is with the
literal `4`, exactly as in the source. -/
def countCorrect (num_options : Int) : Nat → RState → Int × RState
  | 0, s => (0, s)
  | n + 1, s =>
    let r := randint 1 num_options s
    let rest := countCorrect num_options n r.2
    (rest.1 + (if r.1 = 4 then 1 else 0), rest.2)

/-- `QuizSimulator.simulate_participant_score` (src/main.py lines 19-28):
count the draws equal to `4` over `range(num_questions)` (empty for a
non-positive count, as Python's `range`), add `knowledge_shift`, clamp by
`min` with `num_questions`. -/
def QuizSimulator.simulate_participant_score (q : QuizSimulator) (s : RState) :
    Int × RState :=
  let c := countCorrect q.num_options q.num_questions.toNat s
  (min q.num_questions (c.1 + q.knowledge_shift), c.2)

/-- `class GradeDistribution` (src/main.py lines 30-51): holds the list of
scores, in insertion order. -/
structure GradeDistribution where
  scores : List Int

/-- `GradeDistribution.__init__` (src/main.py lines 31-35): starts with an
empty score list. -/
def GradeDistribution.init : GradeDistribution := ⟨[]⟩

/-- `GradeDistribution.add_score` (src/main.py lines 37-43):
`self.scores.append(score)`. -/
def GradeDistribution.add_score (g : GradeDistribution) (score : Int) :
    GradeDistribution :=
  ⟨g.scores ++ [score]⟩

/-- The value of `dict(Counter(l))` (src/main.py line 51): each distinct
element of `l` paired with its number of occurrences.  Key order is
immaterial to the claims, as it is to Python `dict` equality. -/
def dictCounter (l : List Int) : List (Int × Nat) :=
  l.dedup.map fun v => (v, l.count v)

/-- `GradeDistribution.calculate_distribution` (src/main.py lines 45-51):
returns `dict(Counter(self.scores))` and, being a pure read of `self`, leaves
the object state unchanged (second component). -/
def GradeDistribution.calculate_distribution (g : GradeDistribution) :
    List (Int × Nat) × GradeDistribution :=
  (dictCounter g.scores, g)

/-- `class QuizAnalyzer` (src/main.py lines 53-72): the state stored by
`__init__`. -/
structure QuizAnalyzer where
  num_participants : Int
  knowledge_shift : Int
  quiz_simulator : QuizSimulator
  grade_distribution : GradeDistribution

/-- The object built by `QuizAnalyzer.__init__(num_participants,
knowledge_shift)` (src/main.py lines 54-64): it calls
`QuizSimulator(knowledge_shift=knowledge_shift)`, so the simulator keeps the
defaults `num_questions=20` and `num_options=4`. -/
def QuizAnalyzer.mkState (num_participants knowledge_shift : Int) :
    QuizAnalyzer :=
  { num_participants := num_participants
    knowledge_shift := knowledge_shift
    quiz_simulator := ⟨20, 4, knowledge_shift⟩
    grade_distribution := GradeDistribution.init }

/-- `QuizAnalyzer.__init__` (src/main.py lines 54-64): only assignments, no
`raise`, so it always returns `ok`. -/
def QuizAnalyzer.init (num_participants knowledge_shift : Int) :
    Except String QuizAnalyzer :=
  .ok (QuizAnalyzer.mkState num_participants knowledge_shift)

/-- The `for _ in range(n)` loop body of `run_simulation` (src/main.py lines
70-72): simulate one score, feed it to `add_score`, repeat. -/
def runLoop (q : QuizSimulator) : Nat → GradeDistribution → RState →
    GradeDistribution × RState
  | 0, g, s => (g, s)
  | n + 1, g, s =>
    let r := q.simulate_participant_score s
    runLoop q n (g.add_score r.1) r.2

/-- `QuizAnalyzer.run_simulation` (src/main.py lines 66-72): runs the loop
`range(self.num_participants)` times (empty for a non-positive count, as
Python's `range`), threading the random state. -/
def QuizAnalyzer.run_simulation (a : QuizAnalyzer) (s : RState) :
    QuizAnalyzer × RState :=
  let r := runLoop a.quiz_simulator a.num_participants.toNat a.grade_distribution s
  ({ a with grade_distribution := r.1 }, r.2)

/-- Calling `run_simulation` `n` times in a row on the same analyzer object,
threading the analyzer state and the random state. -/
def iterateRuns (a : QuizAnalyzer) (s : RState) : Nat → QuizAnalyzer × RState
  | 0 => (a, s)
  | n + 1 =>
    let r := a.run_simulation s
    iterateRuns r.1 r.2 n

/-- Sum of the occurrence counts of a frequency dictionary. -/
def sumCounts (d : List (Int × Nat)) : Nat :=
  (d.map Prod.snd).sum

/-- For `a ≤ b`, the value drawn by `randint a b` lies in `[a, b]`. -/
theorem randint_mem (a b : Int) (h : a ≤ b) (s : RState) :
    a ≤ (randint a b s).1 ∧ (randint a b s).1 ≤ b := by
  unfold randint
  have h1 : 0 ≤ (s.stream s.pos).emod (b - a + 1) :=
    Int.emod_nonneg _ (by omega)
  have h2 : (s.stream s.pos).emod (b - a + 1) < b - a + 1 :=
    Int.emod_lt_of_pos _ (by omega)
  constructor <;> simp <;> omega

/-- With fewer than four options every draw lies in `[1, 3]`, so the source's
comparison with the literal `4` never succeeds and no answer is ever counted
correct. -/
theorem countCorrect_eq_zero_of_lt_four (o : Int) (h1 : 1 ≤ o) (h4 : o < 4)
    (n : Nat) (s : RState) : (countCorrect o n s).1 = 0 := by
  induction n generalizing s with
  | zero => simp [countCorrect]
  | succ n ih =>
    have hb := randint_mem 1 o h1 s
    simp only [countCorrect]
    have hne : ¬ ((randint 1 o s).1 = 4) := by omega
    simp [hne, ih]

/-- The raw correct-answer count is non-negative. -/
theorem countCorrect_nonneg (o : Int) (n : Nat) (s : RState) :
    0 ≤ (countCorrect o n s).1 := by
  induction n generalizing s with
  | zero => simp [countCorrect]
  | succ n ih =>
    simp only [countCorrect]
    have := ih (randint 1 o s).2
    split <;> omega

/-- Each pass of the `run_simulation` loop appends one score, so the score
list grows by exactly the iteration count. -/
theorem runLoop_length (q : QuizSimulator) (n : Nat) (g : GradeDistribution)
    (s : RState) :
    (runLoop q n g s).1.scores.length = g.scores.length + n := by
  induction n generalizing g s with
  | zero => simp [runLoop]
  | succ n ih =>
    simp only [runLoop]
    rw [ih]
    simp [GradeDistribution.add_score]
    omega

/-- If the simulator returns the same score `c` from every random state, the
loop appends `n` copies of `c`. -/
theorem runLoop_const (q : QuizSimulator) (c : Int)
    (h : ∀ s : RState, (q.simulate_participant_score s).1 = c)
    (n : Nat) (g : GradeDistribution) (s : RState) :
    (runLoop q n g s).1.scores = g.scores ++ List.replicate n c := by
  induction n generalizing g s with
  | zero => simp [runLoop]
  | succ n ih =>
    simp only [runLoop]
    rw [ih]
    simp [GradeDistribution.add_score, h, List.replicate_succ]

/-- `run_simulation` never resets the accumulator: it appends
`num_participants` scores (clamped at zero, like Python's `range`) to whatever
is already stored. -/
theorem run_simulation_length (a : QuizAnalyzer) (s : RState) :
    (a.run_simulation s).1.grade_distribution.scores.length =
      a.grade_distribution.scores.length + a.num_participants.toNat := by
  simp [QuizAnalyzer.run_simulation, runLoop_length]

/-- `run_simulation` changes only the accumulated scores, not the stored
participant count. -/
theorem run_simulation_num_participants (a : QuizAnalyzer) (s : RState) :
    (a.run_simulation s).1.num_participants = a.num_participants := by
  simp [QuizAnalyzer.run_simulation]

/-- After `n` successive calls to `run_simulation`, the score list has grown
by `n * num_participants` entries. -/
theorem iterateRuns_length (n : Nat) (a : QuizAnalyzer) (s : RState) :
    (iterateRuns a s n).1.grade_distribution.scores.length =
      a.grade_distribution.scores.length + n * a.num_participants.toNat := by
  induction n generalizing a s with
  | zero => simp [iterateRuns]
  | succ n ih =>
    simp only [iterateRuns]
    rw [ih, run_simulation_length, run_simulation_num_participants]
    ring

/-- Summing the counts of `dict(Counter(l))` recovers the length of `l`. -/
theorem sumCounts_dictCounter (l : List Int) :
    sumCounts (dictCounter l) = l.length := by
  have h := Multiset.toFinset_sum_count_eq (l : Multiset Int)
  simpa [sumCounts, dictCounter, Finset.sum, List.toFinset, Multiset.toFinset,
    Function.comp] using h

/-- For a non-negative question count and shift, the clamped score lies in
`[0, num_questions]`. -/
theorem simulate_score_bounds (q : QuizSimulator) (s : RState)
    (hq : 0 ≤ q.num_questions) (hk : 0 ≤ q.knowledge_shift) :
    0 ≤ (q.simulate_participant_score s).1 ∧
      (q.simulate_participant_score s).1 ≤ q.num_questions := by
  have hr := countCorrect_nonneg q.num_options q.num_questions.toNat s
  constructor
  · exact le_min hq (by omega)
  · exact min_le_left _ _

/-- C1: the per-question success predicate in the source is `draw == 4` (the
literal), not `draw == num_options`.  With `num_options = 2` the draw always
lies in `[1, 2]`, so it never equals `4` and a one-question quiz always scores
`0`; moreover a stream drawing the last option (the value `2 = num_options`)
is still not counted correct, refuting the claimed predicate. -/
theorem claim_C1_hardcoded_four (s : RState) :
    ¬ ((randint 1 2 s).1 = 4) ∧
      ((⟨1, 2, 0⟩ : QuizSimulator).simulate_participant_score s).1 = 0 ∧
      (randint 1 2 ⟨fun _ => 1, 0⟩).1 = 2 := by
  have hb := randint_mem 1 2 (by omega) s
  have h0 := countCorrect_eq_zero_of_lt_four 2 (by omega) (by omega)
    (Int.toNat 1) s
  refine ⟨by omega, ?_, by decide⟩
  simp only [QuizSimulator.simulate_participant_score, h0]
  decide

/-- C2 counterexample: `num_questions = 0` violates `numQuestions > 0`, and
`num_participants = -1`, `knowledge_shift = -1` violate their constraints, yet
both constructors succeed without raising any error. -/
theorem claim_C2_counterexample :
    QuizSimulator.init 0 4 0 = .ok ⟨0, 4, 0⟩ ∧
      QuizAnalyzer.init (-1) (-1) = .ok (QuizAnalyzer.mkState (-1) (-1)) :=
  ⟨rfl, rfl⟩

/-- C2 (amended): the constructors perform no validation at all: for all
parameter values, valid or invalid, construction succeeds, storing the values
unchanged, and no InvalidConfiguration error is ever raised. -/
theorem claim_C2_no_validation (nq nopt ks np : Int) :
    QuizSimulator.init nq nopt ks = .ok ⟨nq, nopt, ks⟩ ∧
      QuizAnalyzer.init np ks = .ok (QuizAnalyzer.mkState np ks) :=
  ⟨rfl, rfl⟩

/-- C3: in the scenario `num_questions = 1, num_options = 1,
knowledge_shift = 0, num_participants = 5`, the single option drawn is always
`1`, which the source compares against the literal `4`, so every participant
scores `0` and the distribution is `{0: 5}` — not `{1: 5}` as claimed. -/
theorem claim_C3_single_option_scores_zero (s : RState) :
    (((⟨5, 0, ⟨1, 1, 0⟩, GradeDistribution.init⟩ :
          QuizAnalyzer).run_simulation s).1.grade_distribution.calculate_distribution).1
        = [(0, 5)] ∧
      (((⟨5, 0, ⟨1, 1, 0⟩, GradeDistribution.init⟩ :
          QuizAnalyzer).run_simulation s).1.grade_distribution.calculate_distribution).1
        ≠ [(1, 5)] := by
  have hc : ∀ s2 : RState,
      ((⟨1, 1, 0⟩ : QuizSimulator).simulate_participant_score s2).1 = 0 := by
    intro s2
    have h0 := countCorrect_eq_zero_of_lt_four 1 (by omega) (by omega)
      (Int.toNat 1) s2
    simp only [QuizSimulator.simulate_participant_score, h0]
    decide
  have h1 : (((⟨5, 0, ⟨1, 1, 0⟩, GradeDistribution.init⟩ :
        QuizAnalyzer).run_simulation s).1.grade_distribution.calculate_distribution).1
      = dictCounter (runLoop ⟨1, 1, 0⟩ 5 GradeDistribution.init s).1.scores := rfl
  rw [h1, runLoop_const ⟨1, 1, 0⟩ 0 hc 5 GradeDistribution.init s]
  constructor
  · decide
  · decide

/-- C4: for every configuration and `num_participants ≥ 0`, a single run on a
fresh accumulator yields a distribution whose counts sum to exactly
`num_participants`. -/
theorem claim_C4_counts_sum_to_participants (a : QuizAnalyzer) (s : RState)
    (hfresh : a.grade_distribution.scores = [])
    (hnp : 0 ≤ a.num_participants) :
    (sumCounts ((a.run_simulation s).1.grade_distribution.calculate_distribution).1 : Int)
      = a.num_participants := by
  have h1 : ((a.run_simulation s).1.grade_distribution.calculate_distribution).1
      = dictCounter (a.run_simulation s).1.grade_distribution.scores := rfl
  rw [h1, sumCounts_dictCounter, run_simulation_length, hfresh]
  simp [Int.toNat_of_nonneg hnp]

/-- C4 witness at a concrete fresh analyzer and seeded stream. -/
theorem claim_C4_witness :
    (QuizAnalyzer.mkState 3 0).grade_distribution.scores = [] ∧
      0 ≤ (QuizAnalyzer.mkState 3 0).num_participants ∧
      (sumCounts (((QuizAnalyzer.mkState 3 0).run_simulation
            ⟨fun _ => 0, 0⟩).1.grade_distribution.calculate_distribution).1 : Int)
        = (QuizAnalyzer.mkState 3 0).num_participants :=
  ⟨rfl, by decide,
    claim_C4_counts_sum_to_participants (QuizAnalyzer.mkState 3 0)
      ⟨fun _ => 0, 0⟩ rfl (by decide)⟩

/-- C5: the score returned by `simulate_participant_score` is exactly
`min(num_questions, rawCorrect + knowledge_shift)`, the raw count is
non-negative, and for a valid configuration the score lies in
`[0, num_questions]`. -/
theorem claim_C5_score_clamped (q : QuizSimulator) (s : RState)
    (hq : 0 ≤ q.num_questions) (hk : 0 ≤ q.knowledge_shift) :
    (q.simulate_participant_score s).1 =
        min q.num_questions
          ((countCorrect q.num_options q.num_questions.toNat s).1 +
            q.knowledge_shift) ∧
      0 ≤ (countCorrect q.num_options q.num_questions.toNat s).1 ∧
      0 ≤ (q.simulate_participant_score s).1 ∧
      (q.simulate_participant_score s).1 ≤ q.num_questions :=
  ⟨rfl, countCorrect_nonneg q.num_options q.num_questions.toNat s,
    (simulate_score_bounds q s hq hk).1, (simulate_score_bounds q s hq hk).2⟩

/-- C5 witness at a concrete simulator and seeded stream. -/
theorem claim_C5_witness :
    (0 : Int) ≤ 3 ∧ (0 : Int) ≤ 1 ∧
      (((⟨3, 4, 1⟩ : QuizSimulator).simulate_participant_score
            ⟨fun _ => 0, 0⟩).1 =
          min 3 ((countCorrect 4 3 ⟨fun _ => 0, 0⟩).1 + 1) ∧
        0 ≤ (countCorrect 4 3 ⟨fun _ => 0, 0⟩).1 ∧
        0 ≤ ((⟨3, 4, 1⟩ : QuizSimulator).simulate_participant_score
            ⟨fun _ => 0, 0⟩).1 ∧
        ((⟨3, 4, 1⟩ : QuizSimulator).simulate_participant_score
            ⟨fun _ => 0, 0⟩).1 ≤ 3) :=
  ⟨by decide, by decide,
    claim_C5_score_clamped ⟨3, 4, 1⟩ ⟨fun _ => 0, 0⟩ (by decide) (by decide)⟩

/-- If the simulator returns the same score `c` from every random state, one
`run_simulation` appends `num_participants` copies of `c`. -/
theorem run_simulation_const (a : QuizAnalyzer) (c : Int) (s : RState)
    (h : ∀ s2 : RState, (a.quiz_simulator.simulate_participant_score s2).1 = c) :
    (a.run_simulation s).1.grade_distribution.scores =
      a.grade_distribution.scores ++ List.replicate a.num_participants.toNat c := by
  simp only [QuizAnalyzer.run_simulation]
  exact runLoop_const a.quiz_simulator c h a.num_participants.toNat
    a.grade_distribution s

/-- C6: with a positive shift `k`, every score is at least
`min(k, num_questions)`; the score equals `num_questions` whenever
`rawCorrect + k ≥ num_questions`; and the concrete scenario
`num_questions = 20, num_options = 4, knowledge_shift = 20,
num_participants = 10` yields the distribution `{20: 10}`. -/
theorem claim_C6_shift_lower_bound (q : QuizSimulator) (s s2 : RState)
    (hk : 0 < q.knowledge_shift) :
    min q.knowledge_shift q.num_questions ≤ (q.simulate_participant_score s).1 ∧
      (q.num_questions ≤
          (countCorrect q.num_options q.num_questions.toNat s).1 +
            q.knowledge_shift →
        (q.simulate_participant_score s).1 = q.num_questions) ∧
      (((QuizAnalyzer.mkState 10 20).run_simulation
          s2).1.grade_distribution.calculate_distribution).1 = [(20, 10)] := by
  have hr := countCorrect_nonneg q.num_options q.num_questions.toNat s
  refine ⟨?_, ?_, ?_⟩
  · exact le_min (min_le_right _ _)
      (le_trans (min_le_left _ _) (by omega))
  · intro hge
    exact min_eq_left hge
  · have hc : ∀ s3 : RState,
        (((QuizAnalyzer.mkState 10 20).quiz_simulator).simulate_participant_score
            s3).1 = 20 := by
      intro s3
      have hr3 := countCorrect_nonneg 4 (Int.toNat 20) s3
      show min (20 : Int) ((countCorrect 4 (Int.toNat 20) s3).1 + 20) = 20
      exact min_eq_left (by omega)
    have h2 := run_simulation_const (QuizAnalyzer.mkState 10 20) 20 s2 hc
    simp only [GradeDistribution.calculate_distribution]
    rw [h2]
    decide

/-- C6 witness at a concrete simulator and seeded stream. -/
theorem claim_C6_witness :
    (0 : Int) < 1 ∧
      (min 1 2 ≤ ((⟨2, 4, 1⟩ : QuizSimulator).simulate_participant_score
            ⟨fun _ => 0, 0⟩).1 ∧
        ((2 : Int) ≤ (countCorrect 4 2 ⟨fun _ => 0, 0⟩).1 + 1 →
          ((⟨2, 4, 1⟩ : QuizSimulator).simulate_participant_score
              ⟨fun _ => 0, 0⟩).1 = 2) ∧
        (((QuizAnalyzer.mkState 10 20).run_simulation
            ⟨fun _ => 0, 0⟩).1.grade_distribution.calculate_distribution).1 =
          [(20, 10)]) :=
  ⟨by decide,
    claim_C6_shift_lower_bound ⟨2, 4, 1⟩ ⟨fun _ => 0, 0⟩ ⟨fun _ => 0, 0⟩
      (by decide)⟩

/-- C7: with `num_participants = 0`, running the simulation on a fresh
analyzer succeeds and yields the empty distribution, whatever the simulator
configuration. -/
theorem claim_C7_zero_participants_empty (a : QuizAnalyzer) (s : RState)
    (hnp : a.num_participants = 0)
    (hfresh : a.grade_distribution.scores = []) :
    ((a.run_simulation s).1.grade_distribution.calculate_distribution).1 = [] := by
  have h1 : ((a.run_simulation s).1.grade_distribution.calculate_distribution).1
      = dictCounter
          (runLoop a.quiz_simulator a.num_participants.toNat
            a.grade_distribution s).1.scores := rfl
  rw [h1, hnp]
  simp [runLoop, dictCounter, hfresh]

/-- C7 witness at a concrete zero-participant analyzer and seeded stream. -/
theorem claim_C7_witness :
    (QuizAnalyzer.mkState 0 5).num_participants = 0 ∧
      (QuizAnalyzer.mkState 0 5).grade_distribution.scores = [] ∧
      (((QuizAnalyzer.mkState 0 5).run_simulation
          ⟨fun _ => 0, 0⟩).1.grade_distribution.calculate_distribution).1 = [] :=
  ⟨rfl, rfl,
    claim_C7_zero_participants_empty (QuizAnalyzer.mkState 0 5)
      ⟨fun _ => 0, 0⟩ rfl rfl⟩

/-- C8: the simulation is a deterministic function of the configuration and
the random-source state: two runs started from identical analyzer states and
identical seeded random states produce identical distributions. -/
theorem claim_C8_deterministic (a1 a2 : QuizAnalyzer) (s1 s2 : RState)
    (ha : a1 = a2) (hs : s1 = s2) :
    ((a1.run_simulation s1).1.grade_distribution.calculate_distribution).1 =
      ((a2.run_simulation s2).1.grade_distribution.calculate_distribution).1 := by
  rw [ha, hs]

/-- C8 witness at a concrete analyzer and seeded stream. -/
theorem claim_C8_witness :
    QuizAnalyzer.mkState 2 1 = QuizAnalyzer.mkState 2 1 ∧
      (⟨fun _ => 0, 0⟩ : RState) = ⟨fun _ => 0, 0⟩ ∧
      (((QuizAnalyzer.mkState 2 1).run_simulation
          ⟨fun _ => 0, 0⟩).1.grade_distribution.calculate_distribution).1 =
        (((QuizAnalyzer.mkState 2 1).run_simulation
          ⟨fun _ => 0, 0⟩).1.grade_distribution.calculate_distribution).1 :=
  ⟨rfl, rfl,
    claim_C8_deterministic (QuizAnalyzer.mkState 2 1) (QuizAnalyzer.mkState 2 1)
      ⟨fun _ => 0, 0⟩ ⟨fun _ => 0, 0⟩ rfl rfl⟩

/-- C9 counterexample: with `knowledge_shift = -1` (never rejected by the
constructor) and a stream that always draws option `1`, the single
participant's recorded score is `-1`, which lies outside `[0, 20]`. -/
theorem claim_C9_counterexample :
    ((QuizAnalyzer.mkState 1 (-1)).run_simulation
        ⟨fun _ => 0, 0⟩).1.grade_distribution.scores = [-1] ∧
      ¬ ((0 : Int) ≤ -1) := by
  constructor
  · decide
  · decide

/-- C9 (amended): a `QuizAnalyzer` always simulates with `num_questions = 20`
and `num_options = 4` regardless of its two arguments — the constructor passes
only `knowledge_shift` on — and for `knowledge_shift ≥ 0` every score its
simulator produces lies in `[0, 20]`. -/
theorem claim_C9_amended_fixed_config (np ks : Int) (s : RState)
    (hks : 0 ≤ ks) :
    (QuizAnalyzer.mkState np ks).quiz_simulator.num_questions = 20 ∧
      (QuizAnalyzer.mkState np ks).quiz_simulator.num_options = 4 ∧
      0 ≤ ((QuizAnalyzer.mkState np ks).quiz_simulator.simulate_participant_score s).1 ∧
      ((QuizAnalyzer.mkState np ks).quiz_simulator.simulate_participant_score s).1 ≤ 20 := by
  have hb := simulate_score_bounds ⟨20, 4, ks⟩ s
    (show (0 : Int) ≤ 20 by norm_num) hks
  exact ⟨rfl, rfl, hb.1, hb.2⟩

/-- C9 witness at a concrete analyzer and seeded stream. -/
theorem claim_C9_witness :
    (0 : Int) ≤ 0 ∧
      ((QuizAnalyzer.mkState 7 0).quiz_simulator.num_questions = 20 ∧
        (QuizAnalyzer.mkState 7 0).quiz_simulator.num_options = 4 ∧
        0 ≤ ((QuizAnalyzer.mkState 7 0).quiz_simulator.simulate_participant_score
            ⟨fun _ => 0, 0⟩).1 ∧
        ((QuizAnalyzer.mkState 7 0).quiz_simulator.simulate_participant_score
            ⟨fun _ => 0, 0⟩).1 ≤ 20) :=
  ⟨by decide,
    claim_C9_amended_fixed_config 7 0 ⟨fun _ => 0, 0⟩ (by decide)⟩

/-- C10: `n` successive calls to `run_simulation` on the same analyzer
accumulate `n * num_participants` scores — the accumulator is never reset —
so the distribution computed afterwards has counts summing to
`n * num_participants`; and `calculate_distribution` leaves the accumulator
state unchanged. -/
theorem claim_C10_accumulator_grows (np ks : Int) (n : Nat) (s : RState)
    (g : GradeDistribution) (hnp : 0 ≤ np) :
    (iterateRuns (QuizAnalyzer.mkState np ks) s n).1.grade_distribution.scores.length
        = n * np.toNat ∧
      (sumCounts ((iterateRuns (QuizAnalyzer.mkState np ks)
            s n).1.grade_distribution.calculate_distribution).1 : Int)
        = (n : Int) * np ∧
      (g.calculate_distribution).2 = g := by
  have e1 : (QuizAnalyzer.mkState np ks).grade_distribution.scores.length = 0 := rfl
  have e2 : (QuizAnalyzer.mkState np ks).num_participants = np := rfl
  have hlen := iterateRuns_length n (QuizAnalyzer.mkState np ks) s
  rw [e1, e2, Nat.zero_add] at hlen
  refine ⟨hlen, ?_, rfl⟩
  have h1 : ((iterateRuns (QuizAnalyzer.mkState np ks)
        s n).1.grade_distribution.calculate_distribution).1
      = dictCounter (iterateRuns (QuizAnalyzer.mkState np ks)
          s n).1.grade_distribution.scores := rfl
  rw [h1, sumCounts_dictCounter, hlen]
  push_cast [Int.toNat_of_nonneg hnp]
  ring

/-- C10 witness: three runs of two participants each, on a seeded stream. -/
theorem claim_C10_witness :
    (0 : Int) ≤ 2 ∧
      ((iterateRuns (QuizAnalyzer.mkState 2 0)
            ⟨fun _ => 0, 0⟩ 3).1.grade_distribution.scores.length = 6 ∧
        (sumCounts ((iterateRuns (QuizAnalyzer.mkState 2 0)
              ⟨fun _ => 0, 0⟩ 3).1.grade_distribution.calculate_distribution).1 : Int)
          = 6 ∧
        (GradeDistribution.init.calculate_distribution).2 =
          GradeDistribution.init) :=
  ⟨by decide,
    claim_C10_accumulator_grows 2 0 3 ⟨fun _ => 0, 0⟩ GradeDistribution.init
      (by decide)⟩
